import Mathlib

/-!
Verification of the video-enhancer bot (src/bot.py) against its design
specification. The Python source is shallowly embedded: the handlers become
pure Lean functions over explicit inputs (the subprocess diagnostic stream,
its exit code, the per-conversation user_data dictionary, and the set of
local files), Python floats become rationals, and Python exceptions become
an explicit error type threaded through Except / Option results.
-/

namespace VideoEnhancer

/-- Python-level exceptions raised by the code under scrutiny. Messages are
carried structurally; textual renderings are produced by errMsg. -/
inductive PyErr where
  | nameError (n : String)
  | valueError (msg : String)
  | runtimeError (msg : String)
  | keyError (k : String)
  | unboundLocalError (n : String)
  | fileNotFoundError (p : String)
deriving DecidableEq

/-- Rendering of an exception as the text interpolated by the source's
format strings (quote characters around names are omitted). -/
def errMsg : PyErr → String
  | .nameError n => "name " ++ n ++ " is not defined"
  | .valueError m => m
  | .runtimeError m => m
  | .keyError k => k
  | .unboundLocalError n => "local variable " ++ n ++ " referenced before assignment"
  | .fileNotFoundError p => "No such file or directory: " ++ p

/-- The names bound at module level of bot.py: the imports of lines 1-6
(import os / subprocess / logging, the from-imports of telegram, telegram.ext
and dotenv), the logger of line 16, and the module's own functions. The name
re appears nowhere: bot.py never imports the regular-expression module. -/
def moduleGlobals : List String :=
  ["os", "subprocess", "logging",
   "Update", "InlineKeyboardButton", "InlineKeyboardMarkup",
   "Updater", "CommandHandler", "MessageHandler", "Filters",
   "CallbackContext", "CallbackQueryHandler", "load_dotenv", "logger",
   "get_video_resolution", "enhance_video", "start", "handle_message",
   "handle_video", "handle_resolution_selection", "error_handler", "main"]

/-- Python global-name resolution: looking up a name absent from the module
namespace raises NameError. -/
def resolveName (n : String) : Except PyErr Unit :=
  if moduleGlobals.contains n then .ok () else .error (.nameError n)

/-- A HH:MM:SS.ffffff timestamp as captured by the digit-only regexes of
lines 68-69; the three colon-separated fields are mapped through float, so
hours and minutes are naturals and seconds a non-negative rational. -/
structure TimeStamp where
  hours : Nat
  minutes : Nat
  seconds : ℚ
deriving DecidableEq

/-- Conversion of a timestamp to elapsed seconds (lines 80-81 / 99-100):
hours * 3600 + minutes * 60 + seconds. -/
def toSeconds (t : TimeStamp) : ℚ :=
  (t.hours : ℚ) * 3600 + (t.minutes : ℚ) * 60 + t.seconds

/-- One line of the encoder's diagnostic stream, abstracted to the result of
the two regex searches applied to it: the time=...(line 68) marker and the
Duration: ... (line 69) marker, each present or absent. -/
structure DiagLine where
  time_marker : Option TimeStamp
  duration_marker : Option TimeStamp
deriving DecidableEq

/-- Python's int() applied to a rational: truncation toward zero. -/
def pyInt (q : ℚ) : ℤ :=
  if 0 ≤ q then ⌊q⌋ else ⌈q⌉

/-- The percentage computation of line 103:
min(int((current_seconds / total_duration) * 100), 100). -/
def progress_percent (total_duration current_seconds : ℚ) : ℤ :=
  min (pyInt (current_seconds / total_duration * 100)) 100

/-- The duration-scanning loop body of lines 73-82 applied to the lines a
live handle would yield: the first line whose Duration marker matches sets
the total and breaks; stream end leaves it None. -/
def scan_duration_lines : List DiagLine → Option ℚ
  | [] => none
  | l :: rest =>
    match l.duration_marker with
    | some t => some (toSeconds t)
    | none => scan_duration_lines rest

/-- The duration scan of lines 72-82 as applied to process.stderr: readline
on a None handle yields "" at once (line 74), so the loop breaks with no
duration; on a live handle it scans the lines. -/
def scan_total_duration : Option (List DiagLine) → Option ℚ
  | none => none
  | some ls => scan_duration_lines ls

/-- The check of lines 84-85: Python treats None and 0.0 as falsy, so
if not total_duration raises ValueError exactly when the scan produced
nothing or produced zero. -/
def check_total_duration : Option ℚ → Except PyErr ℚ
  | none => .error (.valueError "Could not determine video duration.")
  | some d =>
    if d = 0 then .error (.valueError "Could not determine video duration.")
    else .ok d

/-- The progress loop of lines 90-114 over the stdout lines: a line without
a time marker changes nothing; a matched marker yields a percent that is
emitted (edit_text) exactly when it differs from last_progress_percent,
which it then replaces. Returns the emitted percents in order. -/
def progress_loop (total_duration : ℚ) : List DiagLine → ℤ → List ℤ
  | [], _ => []
  | l :: rest, last =>
    match l.time_marker with
    | none => progress_loop total_duration rest last
    | some t =>
      if progress_percent total_duration (toSeconds t) ≠ last then
        progress_percent total_duration (toSeconds t) ::
          progress_loop total_duration rest (progress_percent total_duration (toSeconds t))
      else
        progress_loop total_duration rest last

/-- The percent updates emitted by the loop, from its initial
last_progress_percent = -1 (line 88). -/
def emitted_updates (total_duration : ℚ) (stdout_lines : List DiagLine) : List ℤ :=
  progress_loop total_duration stdout_lines (-1)

/-- The elapsed times of the matched time markers of a stream, in order. -/
def markers (lines : List DiagLine) : List ℚ :=
  lines.filterMap (fun l => l.time_marker.map toSeconds)

/-- The handle returned by Popen on lines 53-58: stdout=PIPE captures the
merged stream, stderr=STDOUT folds stderr into it, leaving no stderr pipe. -/
structure PopenHandle where
  stdout : Option (List DiagLine)
  stderr : Option (List DiagLine)
  returncode : Int

/-- Popen(command, stdout=PIPE, stderr=STDOUT, text=True): the merged
diagnostic stream arrives on stdout and process.stderr is None. -/
def popen_enhance (merged : List DiagLine) (rc : Int) : PopenHandle :=
  { stdout := some merged, stderr := none, returncode := rc }

/-- The FFmpeg argument list of lines 42-50. -/
def ffmpeg_command (input_path output_path : String) : List String :=
  ["ffmpeg",
   "-i", input_path,
   "-vf", "hqdn3d,unsharp",
   "-c:v", "libx264",
   "-preset", "medium",
   "-crf", "18",
   output_path]

/-- The ffprobe argument list of lines 21-28. -/
def ffprobe_command (video_path : String) : List String :=
  ["ffprobe",
   "-v", "error",
   "-select_streams", "v:0",
   "-show_entries", "stream=width,height",
   "-of", "csv=s=x:p=0",
   video_path]

/-- The observable outcome of one enhance_video call: the encoder command it
built, whether the initial 0-percent message was sent, the percent updates
written to that message, and the normal/raised result. -/
structure EnhanceRun where
  command : List String
  initial_message : Bool
  updates : List ℤ
  result : Except PyErr Unit

/-- Shallow embedding of enhance_video (lines 39-125), as a function of the
merged diagnostic stream and the exit code of the spawned encoder. Steps, in
source order: build the command (42-50); Popen with stderr merged into
stdout (53-58); send the initial progress message (61-65); evaluate
re.compile (line 68), which resolves the global name re; scan process.stderr
for the Duration marker (72-82) and reject a falsy result (84-85); run the
progress loop over process.stdout from last = -1 (88-114); wait and raise on
a non-zero exit status (117-120). The enclosing except block (123-125)
re-raises every exception as RuntimeError with an Error enhancing video
prefix. -/
def enhance_video (input_path output_path : String)
    (merged : List DiagLine) (rc : Int) : EnhanceRun :=
  let command := ffmpeg_command input_path output_path
  let process := popen_enhance merged rc
  match resolveName "re" with
  | .error e =>
    { command := command, initial_message := true, updates := [],
      result := .error (.runtimeError ("Error enhancing video: " ++ errMsg e)) }
  | .ok _ =>
    match check_total_duration (scan_total_duration process.stderr) with
    | .error e =>
      { command := command, initial_message := true, updates := [],
        result := .error (.runtimeError ("Error enhancing video: " ++ errMsg e)) }
    | .ok total_duration =>
      let updates := emitted_updates total_duration (process.stdout.getD [])
      if process.returncode ≠ 0 then
        { command := command, initial_message := true, updates := updates,
          result := .error (.runtimeError
            ("Error enhancing video: " ++ "FFmpeg processing failed.")) }
      else
        { command := command, initial_message := true, updates := updates,
          result := .ok () }

/-- Python whitespace as stripped by str.strip (the characters relevant to
tool output). -/
def pythonWhitespace (c : Char) : Bool :=
  c == ' ' || c == '\t' || c == '\n' || c == '\r'

/-- str.strip: drop leading and trailing whitespace. -/
def strip (s : String) : String :=
  String.mk (((s.data.dropWhile pythonWhitespace).reverse.dropWhile
    pythonWhitespace).reverse)

/-- The outcome of the subprocess.run call of line 29: either it completed
(any exit status; captured stdout text) or raised while spawning. -/
inductive RunResult where
  | completed (stdout : String)
  | raised (e : PyErr)
deriving DecidableEq

/-- Shallow embedding of get_video_resolution (lines 19-36): strip the
probing tool's stdout; empty output raises ValueError inside the try, and
the except block re-raises every exception as ValueError with an Error
detecting resolution prefix. -/
def get_video_resolution (r : RunResult) : Except PyErr String :=
  match r with
  | .raised e =>
    .error (.valueError ("Error detecting resolution: " ++ errMsg e))
  | .completed out =>
    if strip out = "" then
      .error (.valueError
        ("Error detecting resolution: " ++
         "Invalid video format or resolution could not be detected."))
    else
      .ok (strip out)

/-- Lookup in a Python dict modelled as an association list (first binding
wins). -/
def dict_lookup (d : List (String × String)) (k : String) : Option String :=
  (d.find? (fun kv => kv.1 == k)).map (fun kv => kv.2)

/-- Assignment d[k] = v. -/
def dict_set (d : List (String × String)) (k v : String) :
    List (String × String) :=
  (k, v) :: d.filter (fun kv => kv.1 != k)

/-- os.remove: deletes the file or raises FileNotFoundError. -/
def os_remove (p : String) (fs : List String) : Except PyErr (List String) :=
  if fs.contains p then .ok (fs.erase p) else .error (.fileNotFoundError p)

/-- The observable outcome of one handle_resolution_selection call: the
error reply sent from the except block (if any, carrying the caught
exception), whether the enhanced video was delivered, the local files
remaining, and an exception escaping the handler (if any). -/
structure SelectionOutcome where
  error_reply : Option PyErr
  video_sent : Bool
  fs : List String
  escaped : Option PyErr

/-- The except block of lines 199-205 as reached with input_path and
output_path both bound: reply with the error, then remove each of the two
paths that exists. -/
def selection_cleanup (input_path output_path : String) (fs : List String)
    (e : PyErr) : SelectionOutcome :=
  let fs1 := if fs.contains input_path then fs.erase input_path else fs
  let fs2 := if fs1.contains output_path then fs1.erase output_path else fs1
  { error_reply := some e, video_sent := false, fs := fs2, escaped := none }

/-- The output path of line 186, a fixed literal. -/
def selection_output_path : String := "output.mp4"

/-- Shallow embedding of handle_resolution_selection (lines 178-205) as a
function of the callback data, the conversation's user_data, the local
files, and the encoder stream/exit inputs forwarded to enhance_video.
A missing input_path key raises KeyError at line 185 before input_path is
bound, so the except block's reference to input_path at line 202 raises
UnboundLocalError, which escapes the handler (after the error reply of line
200 was sent). With a session present, an exception from enhance_video or
from the unconditional removals of lines 197-198 lands in the except block
with both paths bound. -/
def handle_resolution_selection (query_data : String)
    (user_data : List (String × String)) (fs : List String)
    (merged : List DiagLine) (rc : Int) : SelectionOutcome :=
  match dict_lookup user_data "input_path" with
  | none =>
    { error_reply := some (.keyError "input_path"), video_sent := false,
      fs := fs, escaped := some (.unboundLocalError "input_path") }
  | some input_path =>
    let output_path := selection_output_path
    if query_data == "enhance" then
      match (enhance_video input_path output_path merged rc).result with
      | .error e => selection_cleanup input_path output_path fs e
      | .ok _ =>
        if fs.contains output_path then
          match os_remove input_path fs with
          | .error e => selection_cleanup input_path output_path fs e
          | .ok fs1 =>
            match os_remove output_path fs1 with
            | .error e => selection_cleanup input_path output_path fs1 e
            | .ok fs2 =>
              { error_reply := none, video_sent := true, fs := fs2,
                escaped := none }
        else
          selection_cleanup input_path output_path fs
            (.fileNotFoundError output_path)
    else
      match os_remove input_path fs with
      | .error e => selection_cleanup input_path output_path fs e
      | .ok fs1 =>
        match os_remove output_path fs1 with
        | .error e => selection_cleanup input_path output_path fs1 e
        | .ok fs2 =>
          { error_reply := none, video_sent := false, fs := fs2,
            escaped := none }

/-- An incoming message carrying a video, with the conversation it belongs
to. -/
structure VideoMessage where
  chat_id : Nat
  video_file : Nat
deriving DecidableEq

/-- The local input path chosen by handle_video (line 149): the fixed
literal input.mp4, ignoring the conversation. -/
def handle_video_input_path (_m : VideoMessage) : String := "input.mp4"

/-- The observable outcome of one handle_message / handle_video call. -/
structure MessageOutcome where
  replies : List String
  options_presented : Bool
  user_data : List (String × String)
  fs : List String

/-- Shallow embedding of handle_video (lines 144-175): download the file to
input.mp4, probe its resolution, store input_path and current_resolution in
user_data and present the enhancement choice; on a probe ValueError, reply
with the error and remove the downloaded file if it exists. -/
def handle_video (m : VideoMessage) (probe : RunResult)
    (user_data : List (String × String)) (fs : List String) : MessageOutcome :=
  let input_path := handle_video_input_path m
  let fs1 := if fs.contains input_path then fs else input_path :: fs
  match get_video_resolution probe with
  | .ok current_resolution =>
    { replies := ["Current resolution: " ++ current_resolution ++
        "\nClick Enhance Quality to improve the video."],
      options_presented := true,
      user_data := dict_set (dict_set user_data "input_path" input_path)
        "current_resolution" current_resolution,
      fs := fs1 }
  | .error e =>
    { replies := ["Error: " ++ errMsg e ++
        ". Please try again with a valid video file."],
      options_presented := false,
      user_data := user_data,
      fs := if fs1.contains input_path then fs1.erase input_path else fs1 }

/-- An incoming transport message: a video payload or not. -/
structure IncomingMessage where
  chat_id : Nat
  video : Option Nat
deriving DecidableEq

/-- The guidance reply of line 138. -/
def guidance_reply : String :=
  "Please send a video file only. Other file types are not supported."

/-- Shallow embedding of handle_message (lines 132-141): dispatch to
handle_video when the message carries a video, otherwise send the guidance
reply and touch nothing. -/
def handle_message (m : IncomingMessage) (probe : RunResult)
    (user_data : List (String × String)) (fs : List String) : MessageOutcome :=
  match m.video with
  | some fid =>
    handle_video { chat_id := m.chat_id, video_file := fid } probe user_data fs
  | none =>
    { replies := [guidance_reply], options_presented := false,
      user_data := user_data, fs := fs }

/-- The progress loop re-expressed directly on the elapsed times of the
matched markers (non-matching lines are no-ops, so the loop factors through
markers). -/
def emitRun (D : ℚ) : List ℚ → ℤ → List ℤ
  | [], _ => []
  | c :: rest, last =>
    if progress_percent D c ≠ last then
      progress_percent D c :: emitRun D rest (progress_percent D c)
    else
      emitRun D rest last

/-! ## Supporting lemmas -/

theorem progress_percent_nonneg {D c : ℚ} (hD : 0 < D) (hc : 0 ≤ c) :
    0 ≤ progress_percent D c := by
  have h1 : 0 ≤ c / D * 100 := by positivity
  unfold progress_percent pyInt
  rw [if_pos h1]
  exact le_min (Int.le_floor.mpr (by exact_mod_cast h1)) (by norm_num)

theorem progress_percent_mono {D a b : ℚ} (hD : 0 < D) (ha : 0 ≤ a)
    (hab : a ≤ b) : progress_percent D a ≤ progress_percent D b := by
  have h1 : 0 ≤ a / D * 100 := by positivity
  have h2 : a / D * 100 ≤ b / D * 100 := by gcongr
  have h2' : 0 ≤ b / D * 100 := le_trans h1 h2
  unfold progress_percent pyInt
  rw [if_pos h1, if_pos h2']
  exact min_le_min (Int.floor_le_floor h2) le_rfl

theorem progress_loop_factors (D : ℚ) :
    ∀ (lines : List DiagLine) (last : ℤ),
      progress_loop D lines last = emitRun D (markers lines) last := by
  intro lines
  induction lines with
  | nil => intro last; simp [progress_loop, emitRun, markers]
  | cons l rest ih =>
    intro last
    cases ht : l.time_marker with
    | none =>
      simp [progress_loop, markers, List.filterMap_cons, ht, ih]
    | some t =>
      simp only [progress_loop, markers, List.filterMap_cons, ht,
        Option.map_some']
      by_cases h : progress_percent D (toSeconds t) ≠ last
      · simp only [emitRun, if_pos h, ih]
        rfl
      · simp only [emitRun, if_neg h, ih]
        rfl

theorem emitRun_chain (D : ℚ) (hD : 0 < D) :
    ∀ (cs : List ℚ) (last : ℤ),
      List.Sorted (· ≤ ·) cs →
      (∀ c ∈ cs, 0 ≤ c) →
      (∀ c ∈ cs, last ≤ progress_percent D c) →
      List.Chain' (· < ·) (emitRun D cs last) ∧
        ∀ p ∈ emitRun D cs last, last < p := by
  intro cs
  induction cs with
  | nil =>
    intro last _ _ _
    exact ⟨by simp [emitRun], by simp [emitRun]⟩
  | cons c rest ih =>
    intro last hs hn hl
    have hc0 : 0 ≤ c := hn c (List.mem_cons_self _ _)
    obtain ⟨hle, hs'⟩ := List.sorted_cons.mp hs
    have hn' : ∀ x ∈ rest, 0 ≤ x :=
      fun x hx => hn x (List.mem_cons_of_mem _ hx)
    have hmono : ∀ x ∈ rest, progress_percent D c ≤ progress_percent D x :=
      fun x hx => progress_percent_mono hD hc0 (hle x hx)
    have hlc : last ≤ progress_percent D c := hl c (List.mem_cons_self _ _)
    by_cases h : progress_percent D c = last
    · have hl' : ∀ x ∈ rest, last ≤ progress_percent D x :=
        fun x hx => le_trans h.symm.le (hmono x hx)
      obtain ⟨hch, hgt⟩ := ih last hs' hn' hl'
      have heq : emitRun D (c :: rest) last = emitRun D rest last := by
        simp only [emitRun]
        rw [if_neg (not_not_intro h)]
      rw [heq]
      exact ⟨hch, hgt⟩
    · have hlt : last < progress_percent D c :=
        lt_of_le_of_ne hlc (Ne.symm h)
      obtain ⟨hch, hgt⟩ := ih (progress_percent D c) hs' hn' hmono
      have heq : emitRun D (c :: rest) last =
          progress_percent D c :: emitRun D rest (progress_percent D c) := by
        simp only [emitRun]
        rw [if_pos h]
      rw [heq]
      constructor
      · exact List.chain'_cons'.mpr
          ⟨fun b hb => hgt b (List.mem_of_mem_head? hb), hch⟩
      · intro p hp
        rcases List.mem_cons.mp hp with rfl | hp'
        · exact hlt
        · exact hlt.trans (hgt p hp')

/-- A concrete diagnostic stream for the progress-loop witness: markers at
1 s, 1 s (duplicate), 5 s, 10 s, and one unmatched line. -/
def demoDiag : List DiagLine :=
  [{ time_marker := some { hours := 0, minutes := 0, seconds := 1 },
     duration_marker := none },
   { time_marker := none, duration_marker := none },
   { time_marker := some { hours := 0, minutes := 0, seconds := 1 },
     duration_marker := none },
   { time_marker := some { hours := 0, minutes := 0, seconds := 5 },
     duration_marker := none },
   { time_marker := some { hours := 0, minutes := 0, seconds := 10 },
     duration_marker := none }]

/-! ## Claim theorems -/

/-- Claim C1: for every total duration D > 0 and every diagnostic stream
whose matched elapsed times are non-decreasing and lie in the interval
from 0 to D, the percent sequence emitted by the progress-parsing loop of
enhance_video is non-decreasing and has no consecutive duplicates (a
percent is emitted only when it differs from the last emitted value). -/
theorem progress_updates_monotone_dedup (D : ℚ) (lines : List DiagLine)
    (hD : 0 < D)
    (hsorted : List.Sorted (· ≤ ·) (markers lines))
    (hrange : ∀ c ∈ markers lines, 0 ≤ c ∧ c ≤ D) :
    List.Chain' (· ≤ ·) (emitted_updates D lines) ∧
      List.Chain' (· ≠ ·) (emitted_updates D lines) := by
  have hn : ∀ c ∈ markers lines, 0 ≤ c := fun c hc => (hrange c hc).1
  have hl : ∀ c ∈ markers lines, (-1 : ℤ) ≤ progress_percent D c :=
    fun c hc => le_trans (by norm_num)
      (progress_percent_nonneg hD (hn c hc))
  have h := emitRun_chain D hD (markers lines) (-1) hsorted hn hl
  have he : emitted_updates D lines = emitRun D (markers lines) (-1) :=
    progress_loop_factors D lines (-1)
  rw [he]
  exact ⟨h.1.imp fun _ _ hab => le_of_lt hab,
         h.1.imp fun _ _ hab => ne_of_lt hab⟩

/-- Witness for C1 at D = 10 with markers 1, 1, 5, 10. -/
theorem progress_updates_monotone_dedup_witness :
    List.Chain' (· ≤ ·) (emitted_updates 10 demoDiag) ∧
      List.Chain' (· ≠ ·) (emitted_updates 10 demoDiag) :=
  progress_updates_monotone_dedup 10 demoDiag (by norm_num)
    (by
      have hm : markers demoDiag = [1, 1, 5, 10] := by
        norm_num [demoDiag, markers, List.filterMap_cons, toSeconds]
      rw [hm]
      norm_num [List.sorted_cons])
    (by
      have hm : markers demoDiag = [1, 1, 5, 10] := by
        norm_num [demoDiag, markers, List.filterMap_cons, toSeconds]
      rw [hm]
      norm_num)

/-- A diagnostic stream line carrying a Duration: 00:00:10 marker, used to
exhibit a run on which the duration would have been determinable. -/
def durationLine : DiagLine :=
  { time_marker := none,
    duration_marker := some { hours := 0, minutes := 0, seconds := 10 } }

/-- Claim C2 (code bug): the spec requires enhance_video to determine the
total duration before any progress and to fail with a dedicated duration
error exactly when it is unavailable or non-positive. The code instead
raises, on every call, the RuntimeError wrapping the NameError on the
unresolved name re before the duration scan; and the scan itself reads
process.stderr, which is None because stderr is merged into stdout, so even
without the NameError the duration check of lines 84-85 would reject every
run, including one whose stream carries a Duration marker. -/
theorem duration_probe_never_reached :
    (enhance_video "input.mp4" "output.mp4" [durationLine] 0).result =
      .error (.runtimeError ("Error enhancing video: " ++
        errMsg (.nameError "re"))) ∧
    (popen_enhance [durationLine] 0).stderr = none ∧
    scan_total_duration (popen_enhance [durationLine] 0).stderr = none ∧
    check_total_duration
        (scan_total_duration (popen_enhance [durationLine] 0).stderr) =
      .error (.valueError "Could not determine video duration.") ∧
    scan_duration_lines [durationLine] =
      some (toSeconds { hours := 0, minutes := 0, seconds := 10 }) :=
  ⟨rfl, rfl, rfl, rfl, rfl⟩

/-- Claim C3 (code bug): on a selection event with no prior session the
handler sends the error reply but then, inside its except block, references
the never-assigned local input_path, so an UnboundLocalError escapes the
handler instead of the graceful recovery the spec requires; no file
operation is performed (the file list is untouched). -/
theorem selection_without_session_raises :
    (handle_resolution_selection "enhance" [] ["stray.mp4"] [] 0).escaped =
      some (.unboundLocalError "input_path") ∧
    (handle_resolution_selection "enhance" [] ["stray.mp4"] [] 0).fs =
      ["stray.mp4"] ∧
    (handle_resolution_selection "enhance" [] ["stray.mp4"] [] 0).error_reply =
      some (.keyError "input_path") ∧
    (handle_resolution_selection "enhance" [] ["stray.mp4"] [] 0).video_sent =
      false :=
  ⟨rfl, rfl, rfl, rfl⟩

/-- Claim C4: for every parsed time marker, the computed percent equals
min(100, floor(100 * elapsed / D)), lies in the interval from 0 to 100, and
is exactly 100 whenever the elapsed time overshoots the duration. -/
theorem progress_percent_clamped (D : ℚ) (t : TimeStamp)
    (hD : 0 < D) (hs : 0 ≤ t.seconds) :
    progress_percent D (toSeconds t) = min 100 ⌊100 * toSeconds t / D⌋ ∧
    0 ≤ progress_percent D (toSeconds t) ∧
    progress_percent D (toSeconds t) ≤ 100 ∧
    (D < toSeconds t → progress_percent D (toSeconds t) = 100) := by
  have hh : (0 : ℚ) ≤ (t.hours : ℚ) := Nat.cast_nonneg _
  have hm : (0 : ℚ) ≤ (t.minutes : ℚ) := Nat.cast_nonneg _
  have hc : 0 ≤ toSeconds t := by
    unfold toSeconds
    nlinarith
  have harg : 0 ≤ toSeconds t / D * 100 := by positivity
  have hform : toSeconds t / D * 100 = 100 * toSeconds t / D := by ring
  refine ⟨?_, ?_, ?_, ?_⟩
  · unfold progress_percent pyInt
    rw [if_pos harg, hform, min_comm]
  · exact progress_percent_nonneg hD hc
  · exact min_le_right _ _
  · intro hover
    unfold progress_percent pyInt
    rw [if_pos harg]
    have h1 : (1 : ℚ) < toSeconds t / D := (one_lt_div hD).mpr hover
    have h100 : (100 : ℚ) ≤ toSeconds t / D * 100 := by nlinarith
    have hfl : (100 : ℤ) ≤ ⌊toSeconds t / D * 100⌋ :=
      Int.le_floor.mpr (by exact_mod_cast h100)
    exact min_eq_right hfl

/-- Witness for C4 at D = 10 with an overshooting marker at 25 s. -/
theorem progress_percent_clamped_witness :
    progress_percent 10
      (toSeconds { hours := 0, minutes := 0, seconds := 25 }) = 100 :=
  (progress_percent_clamped 10 { hours := 0, minutes := 0, seconds := 25 }
    (by norm_num) (by norm_num)).2.2.2 (by norm_num [toSeconds])

/-- Claim C5 (code bug): the spec requires a zero encoder exit status to
yield Success; but enhance_video raises on every call (the NameError on re,
re-raised as RuntimeError), so with exit code 0 the result is still an
error and Success is unreachable. The cleanup half of the claim holds: on
that failure path the selection handler removes both the input and the
output file when they exist, and no exception escapes it. -/
theorem zero_exit_not_success :
    (enhance_video "input.mp4" "output.mp4" [durationLine] (0 : Int)).result =
      .error (.runtimeError ("Error enhancing video: " ++
        errMsg (.nameError "re"))) ∧
    (handle_resolution_selection "enhance" [("input_path", "input.mp4")]
        ["input.mp4", "output.mp4"] [durationLine] 0).fs = [] ∧
    (handle_resolution_selection "enhance" [("input_path", "input.mp4")]
        ["input.mp4", "output.mp4"] [durationLine] 0).escaped = none ∧
    (handle_resolution_selection "enhance" [("input_path", "input.mp4")]
        ["input.mp4", "output.mp4"] [durationLine] 0).video_sent = false :=
  ⟨rfl, rfl, rfl, rfl⟩

/-- Claim C6 (code bug): the input and output paths are the fixed literals
input.mp4 and output.mp4 for every conversation, so two distinct
conversation identities collide on both paths instead of receiving
distinct, conversation-unique paths. -/
theorem job_paths_collide_across_conversations :
    handle_video_input_path { chat_id := 0, video_file := 0 } =
      handle_video_input_path { chat_id := 1, video_file := 1 } ∧
    (0 : Nat) ≠ 1 ∧
    handle_video_input_path { chat_id := 0, video_file := 0 } = "input.mp4" ∧
    selection_output_path = "output.mp4" :=
  ⟨rfl, by decide, rfl, rfl⟩

/-- Claim C7: every call to enhance_video raises, whatever the diagnostic
stream and exit code: after Popen it evaluates the unresolved global name
re (bot.py never imports re), the duration scan reads the stderr handle
that is None because stderr was merged into stdout, no progress update
beyond the initial message is ever emitted, and the success outcome is
unreachable. -/
theorem enhance_video_always_raises (input_path output_path : String)
    (merged : List DiagLine) (rc : Int) :
    (enhance_video input_path output_path merged rc).result =
      .error (.runtimeError ("Error enhancing video: " ++
        errMsg (.nameError "re"))) ∧
    (enhance_video input_path output_path merged rc).initial_message = true ∧
    (enhance_video input_path output_path merged rc).updates = [] ∧
    (popen_enhance merged rc).stderr = none ∧
    resolveName "re" = .error (.nameError "re") :=
  ⟨rfl, rfl, rfl, rfl, rfl⟩

/-- Claim C8: get_video_resolution runs the probing tool restricted to the
first video stream requesting width and height, returns the stripped tool
output when it is non-empty, errors exactly when the tool output strips to
empty or the tool raised, and never returns the empty string. -/
theorem get_video_resolution_contract :
    (∀ path : String, ffprobe_command path =
      ["ffprobe", "-v", "error", "-select_streams", "v:0",
       "-show_entries", "stream=width,height", "-of", "csv=s=x:p=0",
       path]) ∧
    (∀ out : String, strip out ≠ "" →
      get_video_resolution (.completed out) = .ok (strip out)) ∧
    (∀ out : String, strip out = "" →
      ∃ e, get_video_resolution (.completed out) = .error e) ∧
    (∀ e : PyErr, ∃ m,
      get_video_resolution (.raised e) = .error (.valueError m)) ∧
    (∀ r v, get_video_resolution r = .ok v → v ≠ "") := by
  refine ⟨fun path => rfl, ?_, ?_, fun e => ⟨_, rfl⟩, ?_⟩
  · intro out h
    simp only [get_video_resolution]
    rw [if_neg h]
  · intro out h
    refine ⟨.valueError ("Error detecting resolution: " ++
      "Invalid video format or resolution could not be detected."), ?_⟩
    simp only [get_video_resolution]
    rw [if_pos h]
  · intro r v hv hveq
    cases r with
    | raised e => exact Except.noConfusion hv
    | completed out =>
      by_cases h : strip out = ""
      · simp only [get_video_resolution, if_pos h] at hv
        exact Except.noConfusion hv
      · simp only [get_video_resolution, if_neg h] at hv
        injection hv with h2
        exact h (h2.trans hveq)

/-- Witness for C8: non-empty padded tool output is stripped and returned;
whitespace-only output errors. -/
theorem get_video_resolution_contract_witness :
    get_video_resolution (.completed " 1920x1080 ") = .ok "1920x1080" ∧
    (∃ e, get_video_resolution (.completed "   ") = .error e) :=
  ⟨get_video_resolution_contract.2.1 " 1920x1080 " (by decide),
   get_video_resolution_contract.2.2.1 "   " (by decide)⟩

/-- Claim C9: for every input and output path, the encoder argument list
built by enhance_video is exactly the fixed list with the input path, the
hqdn3d,unsharp denoise-and-sharpen filter graph, the libx264 codec, the
medium preset, the crf 18 quality constant, and the output path. -/
theorem enhance_command_is_fixed_list (input_path output_path : String)
    (merged : List DiagLine) (rc : Int) :
    (enhance_video input_path output_path merged rc).command =
      ["ffmpeg", "-i", input_path, "-vf", "hqdn3d,unsharp", "-c:v",
       "libx264", "-preset", "medium", "-crf", "18", output_path] :=
  rfl

/-- Claim C10: a message without a video is answered with the guidance
reply only: no file is downloaded or created, user_data is untouched, no
option keyboard is presented, and the conversation state stays Idle. -/
theorem non_video_message_rejected (m : IncomingMessage) (probe : RunResult)
    (user_data : List (String × String)) (fs : List String)
    (h : m.video = none) :
    handle_message m probe user_data fs =
      { replies := [guidance_reply], options_presented := false,
        user_data := user_data, fs := fs } := by
  obtain ⟨cid, v⟩ := m
  cases v with
  | none => rfl
  | some fid => exact Option.noConfusion h

/-- Witness for C10 on a concrete non-video message with populated
user_data and one local file. -/
theorem non_video_message_rejected_witness :
    handle_message { chat_id := 5, video := none } (.completed "1920x1080")
        [("k", "v")] ["f.mp4"] =
      { replies := [guidance_reply], options_presented := false,
        user_data := [("k", "v")], fs := ["f.mp4"] } :=
  non_video_message_rejected { chat_id := 5, video := none }
    (.completed "1920x1080") [("k", "v")] ["f.mp4"] rfl

end VideoEnhancer
